import Mathlib

/-!
Shallow embedding of `src/notebook_v1.py`: an object model for Jupyter
notebooks (code and markdown cells), a loader from raw parsed-JSON
dictionaries, a structural serializer back to the raw shape, a py-percent
text renderer, and a human-readable outliner.

Python dictionaries are modelled as ordered association lists over a JSON
value type; Python exceptions are modelled with an `Except` monad over an
explicit error type.  The helper functions of the missing module
`notebook_v0` (imported by the source with a wildcard import) are modelled
from the spec and carry a `Modelled from the spec:` doc comment.
-/

/-- A parsed-JSON value, the element type of the raw ipynb dictionaries.
Dictionaries are ordered association lists, as Python dicts preserve
insertion order. -/
inductive JVal where
  | str (s : String)
  | int (n : Int)
  | list (xs : List JVal)
  | dict (kvs : List (String × JVal))
  | null
deriving Repr

/-- A raw Python dictionary with string keys. -/
abbrev Dict := List (String × JVal)

/-- The Python-level errors the embedded code can signal.  `keyError` and
`valueError`/`indexError`/`typeError` model the built-in exceptions the
source can actually raise; `missingFieldError` and `malformedVersionError`
model the error taxonomy named by the spec (no class of either name exists
in the source), so that claims about them can be stated. -/
inductive PyErr where
  | keyError (key : String)
  | valueError (msg : String)
  | indexError
  | typeError
  | missingFieldError (field : String)
  | malformedVersionError
deriving Repr, DecidableEq

/-- Computation that may raise a Python-level error. -/
abbrev Py (α : Type) := Except PyErr α

/-- First-match lookup in an association-list dictionary. -/
def dlookup (d : Dict) (k : String) : Option JVal :=
  match d with
  | [] => none
  | (k₁, v) :: rest => if k₁ = k then some v else dlookup rest k

/-- Python subscript access `d[k]`: raises `KeyError` when absent. -/
def getItem (d : Dict) (k : String) : Py JVal :=
  match dlookup d k with
  | some v => .ok v
  | none => .error (.keyError k)

/-- Rendering of a value inside an f-string, as Python `str` would.  Only
the `str`, `int` and `null` cases are exercised by the notebook code. -/
def jstr : JVal → String
  | .str s => s
  | .int n => toString n
  | .null => "None"
  | .list _ => "<list>"
  | .dict _ => "<dict>"

/-- Python `len` on a value; `TypeError` on values without a length. -/
def pyLen : JVal → Py Nat
  | .list xs => .ok xs.length
  | .str s => .ok s.length
  | .dict d => .ok d.length
  | _ => .error .typeError

/-- Python indexing `v[k]` for a non-negative index. -/
def pyIndex : JVal → Nat → Py JVal
  | .list xs, k =>
    match xs.get? k with
    | some v => .ok v
    | none => .error .indexError
  | .str s, k =>
    match s.toList.get? k with
    | some c => .ok (.str (String.singleton c))
    | none => .error .indexError
  | _, _ => .error .typeError

/-- Sequential effectful map, modelling a Python `for` loop that stops at
the first raised exception. -/
def mapE (f : α → Py β) : List α → Py (List β)
  | [] => .ok []
  | a :: l => do
    let b ← f a
    let bs ← mapE f l
    .ok (b :: bs)

/-- Extract a list of dictionaries from a JSON value. -/
def asListDict (v : JVal) : Py (List Dict) :=
  match v with
  | .list xs => mapE (fun x => match x with
      | .dict d => .ok d
      | _ => .error .typeError) xs
  | _ => .error .typeError

/-- Extract a list of strings from a JSON value. -/
def asStrList (v : JVal) : Py (List String) :=
  match v with
  | .list xs => mapE (fun x => match x with
      | .str s => .ok s
      | _ => .error .typeError) xs
  | _ => .error .typeError

/-- Modelled from the spec: the raw-dict accessor `get_cells(raw) ->
list[dict]` of the missing collaborator module, returning the top-level
`cells` entry as a list of cell dictionaries. -/
def get_cells (raw : Dict) : Py (List Dict) := do
  let v ← getItem raw "cells"
  asListDict v

/-- Modelled from the spec: `get_format_version(raw) -> string` of the
missing collaborator module, producing the two-part version string
`"{nbformat}.{nbformat_minor}"`. -/
def get_format_version (raw : Dict) : Py String := do
  let f ← getItem raw "nbformat"
  let m ← getItem raw "nbformat_minor"
  .ok (jstr f ++ "." ++ jstr m)

/-- A file system, for the effect of the save collaborator: a map from
path to written text. -/
abbrev FileSystem := List (String × String)

/-- Modelled from the spec: `save_ipynb(text_or_dict, path)` of the
missing collaborator module writes the text to `path`, overwriting it. -/
def save_ipynb (content : String) (path : String) (fs : FileSystem) : FileSystem :=
  (path, content) :: fs.filter (fun e => e.1 ≠ path)

/-- `clean_cells` of the source, inner loop: keep every key of the cell
dict except `metadata` and `outputs`, preserving order. -/
def cleanCell : Dict → Dict
  | [] => []
  | (k, v) :: rest =>
    if k = "metadata" then cleanCell rest
    else if k = "outputs" then cleanCell rest
    else (k, v) :: cleanCell rest

/-- `clean_cells(ipynb)` of the source: strip `metadata` and `outputs`
from every cell dict of the notebook. -/
def clean_cells (ipynb : Dict) : Py (List Dict) := do
  let cells ← get_cells ipynb
  .ok (cells.map cleanCell)

/-- `CodeCell`: id, source and execution count, read from the cell dict in
the order of the source constructor. -/
structure CodeCell where
  id : JVal
  source : JVal
  execution_count : JVal
deriving Repr

/-- `CodeCell.__init__`: subscript accesses in source order, so a missing
key raises `KeyError` for the first absent field. -/
def CodeCell.init (ipynb : Dict) : Py CodeCell := do
  let i ← getItem ipynb "id"
  let s ← getItem ipynb "source"
  let e ← getItem ipynb "execution_count"
  .ok ⟨i, s, e⟩

/-- `MarkdownCell`: id and source. -/
structure MarkdownCell where
  id : JVal
  source : JVal
deriving Repr

/-- `MarkdownCell.__init__`: subscript accesses in source order. -/
def MarkdownCell.init (ipynb : Dict) : Py MarkdownCell := do
  let i ← getItem ipynb "id"
  let s ← getItem ipynb "source"
  .ok ⟨i, s⟩

/-- A notebook cell: the two classes of the source as a sum. -/
inductive Cell where
  | code (c : CodeCell)
  | markdown (m : MarkdownCell)
deriving Repr

/-- One iteration of the `cells_conv` loop: dispatch on `cell_type`,
producing a markdown cell, a code cell, or nothing (any other
`cell_type`, silently skipped). -/
def convCell (cell : Dict) : Py (Option Cell) := do
  let t ← getItem cell "cell_type"
  match t with
  | .str s =>
    if s = "markdown" then do
      let m ← MarkdownCell.init cell
      .ok (some (.markdown m))
    else if s = "code" then do
      let c ← CodeCell.init cell
      .ok (some (.code c))
    else .ok none
  | _ => .ok none

/-- The accumulation loop of `cells_conv`, left to right, stopping at the
first raised exception. -/
def convertCells : List Dict → Py (List Cell)
  | [] => .ok []
  | d :: rest => do
    let c? ← convCell d
    let cs ← convertCells rest
    match c? with
    | some c => .ok (c :: cs)
    | none => .ok cs

/-- `cells_conv(ipynb)` of the source: clean the cells, then convert each
to a typed cell, skipping unknown cell types. -/
def cells_conv (ipynb : Dict) : Py (List Cell) := do
  let cleaned ← clean_cells ipynb
  convertCells cleaned

/-- `Notebook`: a version string and the ordered typed cells. -/
structure Notebook where
  version : String
  cells : List Cell
deriving Repr

/-- `Notebook.__init__`: version first (via `get_format_version`), then
the converted cells. -/
def Notebook.load (ipynb : Dict) : Py Notebook := do
  let v ← get_format_version ipynb
  let cs ← cells_conv ipynb
  .ok ⟨v, cs⟩

/-- `Notebook.__iter__`: iteration over `self.cells`, in order. -/
def Notebook.iterCells (nb : Notebook) : List Cell :=
  nb.cells

/-- Python `s[0]` on a string: first character, `IndexError` when empty. -/
def strFirst (s : String) : Py Char :=
  match s.toList with
  | [] => .error .indexError
  | c :: _ => .ok c

/-- Python `s[-1]` on a string: last character, `IndexError` when empty. -/
def strLast (s : String) : Py Char :=
  match s.toList.getLast? with
  | some c => .ok c
  | none => .error .indexError

/-- Python `int` applied to a one-character string: its digit value, or
`ValueError` when the character is not a digit. -/
def pyIntOfChar (c : Char) : Py Int :=
  if c.isDigit then .ok (Int.ofNat (c.toNat - 48))
  else .error (.valueError "invalid literal for int")

/-- The cell dictionary rebuilt by `Serializer.serialize` (and,
identically, inside `PyPercentSerializer.to_py_percent`), with the exact
key insertion order of the source. -/
def serializeCell (cell : Cell) : Dict :=
  match cell with
  | .markdown m =>
    [("cell_type", .str "markdown"), ("id", m.id),
     ("metadata", .dict []), ("source", m.source)]
  | .code c =>
    [("cell_type", .str "code"), ("execution_count", c.execution_count),
     ("id", c.id), ("metadata", .dict []), ("outputs", .list []),
     ("source", c.source)]

/-- `Serializer.serialize`.  Note the version handling of the source: the
result of `v.split('.')` is computed and discarded, and `nbformat` and
`nbformat_minor` are taken from `int(v[0])` and `int(v[-1])`, the first
and last characters of the version string. -/
def Serializer.serialize (nb0 : Notebook) : Py Dict := do
  let cells := nb0.cells.map serializeCell
  let v := nb0.version
  let _ := v.splitOn "."
  let c₀ ← strFirst v
  let n₀ ← pyIntOfChar c₀
  let c₁ ← strLast v
  let n₁ ← pyIntOfChar c₁
  .ok [("cells", .list (cells.map JVal.dict)), ("metadata", .dict []),
       ("nbformat", .int n₀), ("nbformat_minor", .int n₁)]

/-- `Serializer.to_file`: the body of the source method is `pass`, so it
performs no serialization and no write; the file system is returned
unchanged. -/
def Serializer.to_file (_nb : Notebook) (_filename : String) (fs : FileSystem) : FileSystem :=
  fs

/-- The dictionary built inside `PyPercentSerializer.to_py_percent`
before it is handed to `to_percent`; the source body is the same code as
`Serializer.serialize`, transcribed independently. -/
def PyPercentSerializer.buildDict (nb0 : Notebook) : Py Dict := do
  let cells := nb0.cells.map serializeCell
  let v := nb0.version
  let _ := v.splitOn "."
  let c₀ ← strFirst v
  let n₀ ← pyIntOfChar c₀
  let c₁ ← strLast v
  let n₁ ← pyIntOfChar c₁
  .ok [("cells", .list (cells.map JVal.dict)), ("metadata", .dict []),
       ("nbformat", .int n₀), ("nbformat_minor", .int n₁)]

/-- One py-percent block for one serialized cell dictionary: a
`# %% [markdown]` line and `# `-prefixed source lines for markdown, a
`# %%` line and verbatim source lines otherwise. -/
def percentBlock (cell : Dict) : Py String := do
  let t ← getItem cell "cell_type"
  let s ← getItem cell "source"
  let lines ← asStrList s
  match t with
  | .str k =>
    if k = "markdown" then
      .ok ("# %% [markdown]\n" ++ String.join (lines.map (fun l => "# " ++ l)))
    else
      .ok ("# %%\n" ++ String.join lines)
  | _ => .ok ("# %%\n" ++ String.join lines)

/-- Modelled from the spec: the percent-format renderer `to_percent(dict)
-> string` of the missing collaborator module: one block per cell in
order, consecutive blocks separated by exactly one blank line, with no
extra leading or trailing blank line. -/
def to_percent (nb : Dict) : Py String := do
  let cellsV ← getItem nb "cells"
  let cells ← asListDict cellsV
  let blocks ← mapE percentBlock cells
  .ok (String.intercalate "\n\n" blocks)

/-- `PyPercentSerializer.to_py_percent`: build the serialized dictionary
and render it with the collaborator `to_percent`. -/
def PyPercentSerializer.to_py_percent (nb0 : Notebook) : Py String := do
  let nb ← PyPercentSerializer.buildDict nb0
  to_percent nb

/-- `PyPercentSerializer.to_file`: render to py-percent text, then write
it via `save_ipynb`. -/
def PyPercentSerializer.to_file (nb : Notebook) (filename : String) (fs : FileSystem) : Py FileSystem := do
  let s ← PyPercentSerializer.to_py_percent nb
  .ok (save_ipynb s filename fs)

/-- One rendered source line of `Outliner.outline`, reproducing the
f-strings of the source exactly (their leading and trailing spaces
included) for line index `k` of `numberLines` lines, plus the newline the
source appends after the last index. -/
def outlineLine (numberLines : Nat) (k : Nat) (line : String) : String :=
  (if k = 0 ∧ numberLines ≠ 1 then "    ┌  " ++ line
   else if k = numberLines - 1 ∧ numberLines ≠ 1 then "   └  " ++ line ++ " "
   else "    |  " ++ line ++ " ")
  ++ (if k = numberLines - 1 then "\n" else "")

/-- The body of the `Outliner.outline` loop for one cell: the header line
(the source writes `Code Cell` or `Markdown Cell`, dispatching on the
runtime type, with no execution count) followed by the rendered source
lines. -/
def outlineCell (cell : Cell) : Py String := do
  let t := match cell with
    | .code _ => "Code Cell"
    | .markdown _ => "Markdown Cell"
  let idv := match cell with
    | .code c => c.id
    | .markdown m => m.id
  let src := match cell with
    | .code c => c.source
    | .markdown m => m.source
  let n ← pyLen src
  let lines ← mapE (fun k => do
    let v ← pyIndex src k
    .ok (outlineLine n k (jstr v))) (List.range n)
  .ok ("└─▶ " ++ t ++ " #" ++ jstr idv ++ "\n" ++ String.join lines)

/-- `Outliner.outline`: the first line of the source reads
`Jupyter notebook v{version}` (lower-case `notebook`), followed by the
per-cell pieces in order. -/
def Outliner.outline (nb : Notebook) : Py String := do
  let pieces ← mapE outlineCell nb.cells
  .ok ("Jupyter notebook v" ++ nb.version ++ "\n" ++ String.join pieces)

/-- The result of a conversion step, with a raised exception counting as
producing no cell; used to describe which cells survive loading. -/
def okCell : Py (Option Cell) → Option Cell
  | .ok o => o
  | .error _ => none

/-- The id of a cell, for order-of-iteration statements. -/
def cellId : Cell → JVal
  | .code c => c.id
  | .markdown m => m.id

/-- The first required field, in the access order of the cell
constructors, that is absent from a cell dict of known cell type. -/
def requiredMissing (d : Dict) : Option String :=
  match dlookup d "cell_type" with
  | some (.str t) =>
    if t = "markdown" then
      if (dlookup d "id").isNone then some "id"
      else if (dlookup d "source").isNone then some "source"
      else none
    else if t = "code" then
      if (dlookup d "id").isNone then some "id"
      else if (dlookup d "source").isNone then some "source"
      else if (dlookup d "execution_count").isNone then some "execution_count"
      else none
    else none
  | _ => none

/-- A cell dict whose `cell_type` entry is present but is neither the
string `code` nor the string `markdown`. -/
def unknownType (d : Dict) : Prop :=
  ∃ u, dlookup d "cell_type" = some u ∧ u ≠ .str "markdown" ∧ u ≠ .str "code"

/-- The py-percent block of one typed cell, written from the words of the
spec: markdown cells get a `# %% [markdown]` marker and `# `-prefixed
source lines, code cells get a `# %%` marker and verbatim source lines,
with the trailing newlines of the source lines as the only separators. -/
def specBlock : Cell → Py String
  | .markdown m => do
    let lines ← asStrList m.source
    .ok ("# %% [markdown]\n" ++ String.join (lines.map (fun l => "# " ++ l)))
  | .code c => do
    let lines ← asStrList c.source
    .ok ("# %%\n" ++ String.join lines)

/-- The raw dict of the three-cell scenario of spec section 8. -/
def raw8 : Dict :=
  [("cells", .list [
     .dict [("cell_type", .str "markdown"), ("id", .str "a9541506"),
            ("metadata", .dict []),
            ("source", .list [.str "Hello world!\n", .str "============\n",
                              .str "Print `Hello world!`:"])],
     .dict [("cell_type", .str "code"), ("execution_count", .int 1),
            ("id", .str "b777420a"), ("metadata", .dict []),
            ("outputs", .list []),
            ("source", .list [.str "print(\"Hello world!\")"])],
     .dict [("cell_type", .str "markdown"), ("id", .str "a23ab5ac"),
            ("metadata", .dict []),
            ("source", .list [.str "Goodbye! 👋"])]]),
   ("metadata", .dict []), ("nbformat", .int 4), ("nbformat_minor", .int 5)]

/-- The cell dicts of `raw8`, as `get_cells` returns them. -/
def cs8 : List Dict :=
  [[("cell_type", .str "markdown"), ("id", .str "a9541506"),
    ("metadata", .dict []),
    ("source", .list [.str "Hello world!\n", .str "============\n",
                      .str "Print `Hello world!`:"])],
   [("cell_type", .str "code"), ("execution_count", .int 1),
    ("id", .str "b777420a"), ("metadata", .dict []),
    ("outputs", .list []),
    ("source", .list [.str "print(\"Hello world!\")"])],
   [("cell_type", .str "markdown"), ("id", .str "a23ab5ac"),
    ("metadata", .dict []),
    ("source", .list [.str "Goodbye! 👋"])]]

/-- The notebook loaded from `raw8`. -/
def nb8 : Notebook :=
  { version := "4.5",
    cells := [
      .markdown ⟨.str "a9541506",
        .list [.str "Hello world!\n", .str "============\n",
               .str "Print `Hello world!`:"]⟩,
      .code ⟨.str "b777420a", .list [.str "print(\"Hello world!\")"], .int 1⟩,
      .markdown ⟨.str "a23ab5ac", .list [.str "Goodbye! 👋"]⟩] }

/-- The dictionary `Serializer.serialize` produces from `nb8`. -/
def s8dict : Dict :=
  [("cells", .list [
     .dict [("cell_type", .str "markdown"), ("id", .str "a9541506"),
            ("metadata", .dict []),
            ("source", .list [.str "Hello world!\n", .str "============\n",
                              .str "Print `Hello world!`:"])],
     .dict [("cell_type", .str "code"), ("execution_count", .int 1),
            ("id", .str "b777420a"), ("metadata", .dict []),
            ("outputs", .list []),
            ("source", .list [.str "print(\"Hello world!\")"])],
     .dict [("cell_type", .str "markdown"), ("id", .str "a23ab5ac"),
            ("metadata", .dict []),
            ("source", .list [.str "Goodbye! 👋"])]]),
   ("metadata", .dict []), ("nbformat", .int 4), ("nbformat_minor", .int 5)]

/-- The documented py-percent output of the section 8 scenario. -/
def samplePercent : String :=
  "# %% [markdown]\n# Hello world!\n# ============\n# Print `Hello world!`:\n\n# %%\nprint(\"Hello world!\")\n\n# %% [markdown]\n# Goodbye! 👋"

/-- The outline the code actually produces on the section 8 scenario. -/
def actualOutline : String :=
  "Jupyter notebook v4.5\n└─▶ Markdown Cell #a9541506\n    ┌  Hello world!\n    |  ============\n    └  Print `Hello world!`: \n└─▶ Code Cell #b777420a\n    |  print(\"Hello world!\") \n└─▶ Markdown Cell #a23ab5ac\n    |  Goodbye! 👋 \n"

/-- The outline documented by the spec for the section 8 scenario. -/
def sampleOutline : String :=
  "Jupyter Notebook v4.5\n└─▶ Markdown cell #a9541506\n    ┌  Hello world!\n    │  ============\n    └  Print `Hello world!`:\n└─▶ Code cell #b777420a (1)\n    | print(\"Hello world!\")\n└─▶ Markdown cell #a23ab5ac\n    | Goodbye! 👋\n"

/-- A valid raw notebook whose format version has a two-digit minor
component. -/
def raw12 : Dict :=
  [("cells", .list [
     .dict [("cell_type", .str "markdown"), ("id", .str "a9541506"),
            ("metadata", .dict []),
            ("source", .list [.str "Hello world!\n"])]]),
   ("metadata", .dict []), ("nbformat", .int 4), ("nbformat_minor", .int 12)]

/-- The notebook loaded from `raw12`: its version string is `4.12`. -/
def nb12 : Notebook :=
  { version := "4.12",
    cells := [.markdown ⟨.str "a9541506", .list [.str "Hello world!\n"]⟩] }

/-- What `Serializer.serialize` produces from `nb12`: the minor version
collapses to the last character of the version string. -/
def s12dict : Dict :=
  [("cells", .list [
     .dict [("cell_type", .str "markdown"), ("id", .str "a9541506"),
            ("metadata", .dict []),
            ("source", .list [.str "Hello world!\n"])]]),
   ("metadata", .dict []), ("nbformat", .int 4), ("nbformat_minor", .int 2)]

/-- A raw notebook whose only cell is a code cell lacking the required
`execution_count` field. -/
def rawMissing : Dict :=
  [("cells", .list [
     .dict [("cell_type", .str "code"), ("id", .str "b777420a"),
            ("metadata", .dict []),
            ("source", .list [.str "1 + 1"])]]),
   ("metadata", .dict []), ("nbformat", .int 4), ("nbformat_minor", .int 5)]

/-- A raw notebook whose only cell is a markdown cell lacking the
required `source` field. -/
def rawMissingSource : Dict :=
  [("cells", .list [
     .dict [("cell_type", .str "markdown"), ("id", .str "m1")]]),
   ("metadata", .dict []), ("nbformat", .int 4), ("nbformat_minor", .int 5)]

/-- A raw notebook with a markdown cell, a cell of the unknown type
`raw`, and a code cell. -/
def rawUnknown : Dict :=
  [("cells", .list [
     .dict [("cell_type", .str "markdown"), ("id", .str "m1"),
            ("source", .list [.str "hi"])],
     .dict [("cell_type", .str "raw"), ("id", .str "r1"),
            ("source", .list [.str "raw text"])],
     .dict [("cell_type", .str "code"), ("execution_count", .null),
            ("id", .str "c1"), ("source", .list [.str "2 + 2"])]]),
   ("metadata", .dict []), ("nbformat", .int 4), ("nbformat_minor", .int 5)]

/-- The cell dicts of `rawUnknown`, as `get_cells` returns them. -/
def csU : List Dict :=
  [[("cell_type", .str "markdown"), ("id", .str "m1"),
    ("source", .list [.str "hi"])],
   [("cell_type", .str "raw"), ("id", .str "r1"),
    ("source", .list [.str "raw text"])],
   [("cell_type", .str "code"), ("execution_count", .null),
    ("id", .str "c1"), ("source", .list [.str "2 + 2"])]]

/-- An empty notebook with version string `4.12`. -/
def nbV412 : Notebook := { version := "4.12", cells := [] }

/-- An empty notebook with version string `10.5`. -/
def nbV105 : Notebook := { version := "10.5", cells := [] }

/-- An empty notebook whose version string has no dot at all. -/
def nbV4 : Notebook := { version := "4", cells := [] }

/-- An empty notebook whose version string has three components. -/
def nbV451 : Notebook := { version := "4.5.1", cells := [] }

/-- An empty notebook whose version string is not numeric. -/
def nbVwords : Notebook := { version := "fourfive", cells := [] }

/-- Bind of an ok value in the exception monad. -/
theorem py_bind_ok (a : α) (f : α → Py β) : (Bind.bind (.ok a) f : Py β) = f a :=
  rfl

/-- Bind of a raised exception in the exception monad. -/
theorem py_bind_err (e : PyErr) (f : α → Py β) :
    (Bind.bind (.error e) f : Py β) = .error e :=
  rfl

/-- Mapping an effectful function over a mapped list. -/
theorem mapE_map (f : β → Py γ) (g : α → β) (l : List α) :
    mapE f (l.map g) = mapE (fun a => f (g a)) l := by
  induction l with
  | nil => rfl
  | cons a l ih => simp [List.map, mapE, ih]

/-- Pointwise equal effectful functions give equal sequential maps. -/
theorem mapE_congr (f g : α → Py β) (h : ∀ a, f a = g a) (l : List α) :
    mapE f l = mapE g l := by
  induction l with
  | nil => rfl
  | cons a l ih => simp [mapE, h a, ih]

/-- A sequential map of a pure function never raises. -/
theorem mapE_ok_id (l : List α) : mapE (fun a => (.ok a : Py α)) l = .ok l := by
  induction l with
  | nil => rfl
  | cons a l ih => simp [mapE, ih, py_bind_ok]

/-- Extracting a list of dictionaries from their JSON wrapping. -/
theorem asListDict_map_dict (ds : List Dict) :
    asListDict (.list (ds.map JVal.dict)) = .ok ds := by
  show mapE _ (ds.map JVal.dict) = .ok ds
  rw [mapE_map]
  exact mapE_ok_id ds

/-- Stripping `metadata` and `outputs` leaves every other key bound to
the same value. -/
theorem dlookup_cleanCell (d : Dict) (k : String) (h1 : k ≠ "metadata")
    (h2 : k ≠ "outputs") : dlookup (cleanCell d) k = dlookup d k := by
  induction d with
  | nil => rfl
  | cons kv rest ih =>
    obtain ⟨k₁, v⟩ := kv
    simp only [cleanCell]
    by_cases hm : k₁ = "metadata"
    · subst hm
      rw [if_pos rfl, ih]
      have hk : "metadata" ≠ k := fun hh => h1 hh.symm
      simp [dlookup, hk]
    · rw [if_neg hm]
      by_cases ho : k₁ = "outputs"
      · subst ho
        rw [if_pos rfl, ih]
        have hk : "outputs" ≠ k := fun hh => h2 hh.symm
        simp [dlookup, hk]
      · rw [if_neg ho]
        by_cases hk : k₁ = k
        · simp [dlookup, hk]
        · simp [dlookup, hk, ih]

/-- A markdown cell dict without `id` makes the constructor raise
`KeyError` for `id`. -/
theorem convCell_markdown_no_id (d : Dict)
    (hct : dlookup d "cell_type" = some (.str "markdown"))
    (hid : dlookup d "id" = none) :
    convCell d = .error (.keyError "id") := by
  simp [convCell, getItem, hct, hid, MarkdownCell.init, py_bind_ok, py_bind_err]

/-- A markdown cell dict with `id` but without `source` makes the
constructor raise `KeyError` for `source`. -/
theorem convCell_markdown_no_source (d : Dict) (i : JVal)
    (hct : dlookup d "cell_type" = some (.str "markdown"))
    (hid : dlookup d "id" = some i)
    (hsrc : dlookup d "source" = none) :
    convCell d = .error (.keyError "source") := by
  simp [convCell, getItem, hct, hid, hsrc, MarkdownCell.init, py_bind_ok, py_bind_err]

/-- A code cell dict without `id` makes the constructor raise `KeyError`
for `id`. -/
theorem convCell_code_no_id (d : Dict)
    (hct : dlookup d "cell_type" = some (.str "code"))
    (hid : dlookup d "id" = none) :
    convCell d = .error (.keyError "id") := by
  simp [convCell, getItem, hct, hid, CodeCell.init, py_bind_ok, py_bind_err]

/-- A code cell dict with `id` but without `source` makes the constructor
raise `KeyError` for `source`. -/
theorem convCell_code_no_source (d : Dict) (i : JVal)
    (hct : dlookup d "cell_type" = some (.str "code"))
    (hid : dlookup d "id" = some i)
    (hsrc : dlookup d "source" = none) :
    convCell d = .error (.keyError "source") := by
  simp [convCell, getItem, hct, hid, hsrc, CodeCell.init, py_bind_ok, py_bind_err]

/-- A code cell dict with `id` and `source` but without
`execution_count` makes the constructor raise `KeyError` for it. -/
theorem convCell_code_no_count (d : Dict) (i s : JVal)
    (hct : dlookup d "cell_type" = some (.str "code"))
    (hid : dlookup d "id" = some i)
    (hsrc : dlookup d "source" = some s)
    (hec : dlookup d "execution_count" = none) :
    convCell d = .error (.keyError "execution_count") := by
  simp [convCell, getItem, hct, hid, hsrc, hec, CodeCell.init, py_bind_ok, py_bind_err]

/-- Converting the cleaned form of a cell dict that lacks a required
field raises `KeyError` for the first absent field. -/
theorem convCell_missing (d : Dict) (f : String)
    (h : requiredMissing d = some f) :
    convCell (cleanCell d) = .error (.keyError f) := by
  have lk : ∀ k : String, k ≠ "metadata" → k ≠ "outputs" →
      dlookup (cleanCell d) k = dlookup d k := fun k h1 h2 =>
    dlookup_cleanCell d k h1 h2
  unfold requiredMissing at h
  cases hct : dlookup d "cell_type" with
  | none => rw [hct] at h; simp at h
  | some u =>
    rw [hct] at h
    cases u with
    | str t =>
      simp only at h
      split_ifs at h with hmd hid hsrc hcd hid2 hsrc2 hec
      · -- markdown, id missing
        obtain rfl : f = "id" := (Option.some.inj h).symm
        subst hmd
        exact convCell_markdown_no_id _ (by rw [lk _ (by decide) (by decide), hct])
          (by rw [lk _ (by decide) (by decide)]; exact Option.isNone_iff_eq_none.mp hid)
      · -- markdown, source missing
        obtain rfl : f = "source" := (Option.some.inj h).symm
        subst hmd
        obtain ⟨i, hi⟩ := Option.ne_none_iff_exists.mp
          (fun hh => by rw [← Option.isNone_iff_eq_none] at hh; rw [hh] at hid; exact hid rfl)
        exact convCell_markdown_no_source _ i
          (by rw [lk _ (by decide) (by decide), hct])
          (by rw [lk _ (by decide) (by decide)]; exact hi.symm)
          (by rw [lk _ (by decide) (by decide)]; exact Option.isNone_iff_eq_none.mp hsrc)
      · -- code, id missing
        obtain rfl : f = "id" := (Option.some.inj h).symm
        subst hcd
        exact convCell_code_no_id _ (by rw [lk _ (by decide) (by decide), hct])
          (by rw [lk _ (by decide) (by decide)]; exact Option.isNone_iff_eq_none.mp hid2)
      · -- code, source missing
        obtain rfl : f = "source" := (Option.some.inj h).symm
        subst hcd
        obtain ⟨i, hi⟩ := Option.ne_none_iff_exists.mp
          (fun hh => by rw [← Option.isNone_iff_eq_none] at hh; rw [hh] at hid2; exact hid2 rfl)
        exact convCell_code_no_source _ i
          (by rw [lk _ (by decide) (by decide), hct])
          (by rw [lk _ (by decide) (by decide)]; exact hi.symm)
          (by rw [lk _ (by decide) (by decide)]; exact Option.isNone_iff_eq_none.mp hsrc2)
      · -- code, execution count missing
        obtain rfl : f = "execution_count" := (Option.some.inj h).symm
        subst hcd
        obtain ⟨i, hi⟩ := Option.ne_none_iff_exists.mp
          (fun hh => by rw [← Option.isNone_iff_eq_none] at hh; rw [hh] at hid2; exact hid2 rfl)
        obtain ⟨s, hs⟩ := Option.ne_none_iff_exists.mp
          (fun hh => by rw [← Option.isNone_iff_eq_none] at hh; rw [hh] at hsrc2; exact hsrc2 rfl)
        exact convCell_code_no_count _ i s
          (by rw [lk _ (by decide) (by decide), hct])
          (by rw [lk _ (by decide) (by decide)]; exact hi.symm)
          (by rw [lk _ (by decide) (by decide)]; exact hs.symm)
          (by rw [lk _ (by decide) (by decide)]; exact Option.isNone_iff_eq_none.mp hec)
    | int n => simp at h
    | list xs => simp at h
    | dict kvs => simp at h
    | null => simp at h

/-- A cell dict whose `cell_type` is neither `code` nor `markdown` is
converted to no cell at all, without an error. -/
theorem convCell_unknown (d : Dict) (hu : unknownType d) :
    convCell (cleanCell d) = .ok none := by
  obtain ⟨u, hct, hm, hc⟩ := hu
  have hct' : dlookup (cleanCell d) "cell_type" = some u := by
    rw [dlookup_cleanCell d _ (by decide) (by decide)]; exact hct
  cases u with
  | str t =>
    have hm' : t ≠ "markdown" := fun hh => hm (by rw [hh])
    have hc' : t ≠ "code" := fun hh => hc (by rw [hh])
    simp [convCell, getItem, hct', hm', hc', py_bind_ok]
  | int n => simp [convCell, getItem, hct', py_bind_ok]
  | list xs => simp [convCell, getItem, hct', py_bind_ok]
  | dict kvs => simp [convCell, getItem, hct', py_bind_ok]
  | null => simp [convCell, getItem, hct', py_bind_ok]

/-- When every conversion step succeeds, the conversion loop returns
exactly the produced cells, in order, dropping the skipped ones. -/
theorem convertCells_ok (l : List Dict)
    (h : ∀ d ∈ l, ∃ r, convCell d = .ok r) :
    convertCells l = .ok (l.filterMap (fun d => okCell (convCell d))) := by
  induction l with
  | nil => rfl
  | cons d rest ih =>
    obtain ⟨r, hr⟩ := h d (List.mem_cons_self d rest)
    have ihr := ih (fun x hx => h x (List.mem_cons_of_mem d hx))
    cases r with
    | none => simp [convertCells, hr, py_bind_ok, ihr, List.filterMap_cons, okCell]
    | some c => simp [convertCells, hr, py_bind_ok, ihr, List.filterMap_cons, okCell]

/-- The conversion loop raises the error of its first failing cell when
all earlier cells convert without error. -/
theorem convertCells_err (pre : List Dict) (bad : Dict) (rest : List Dict)
    (e : PyErr) (hpre : ∀ d ∈ pre, ∃ r, convCell d = .ok r)
    (hbad : convCell bad = .error e) :
    convertCells (pre ++ bad :: rest) = .error e := by
  induction pre with
  | nil => simp [convertCells, hbad, py_bind_err]
  | cons d pre ih =>
    obtain ⟨r, hr⟩ := hpre d (List.mem_cons_self d pre)
    have ih2 := ih (fun x hx => hpre x (List.mem_cons_of_mem d hx))
    cases r <;> simp [convertCells, hr, py_bind_ok, ih2, py_bind_err]

/-- Loading succeeds when the version accessors succeed and every cell
dict converts without error; the cells of the result are the converted
cells in document order, with the skipped ones dropped. -/
theorem load_ok_of (raw : Dict) (v : String) (cs : List Dict)
    (hver : get_format_version raw = .ok v)
    (hget : get_cells raw = .ok cs)
    (hok : ∀ d ∈ cs, ∃ r, convCell (cleanCell d) = .ok r) :
    Notebook.load raw =
      .ok ⟨v, cs.filterMap (fun d => okCell (convCell (cleanCell d)))⟩ := by
  have hconv : convertCells (cs.map cleanCell) =
      .ok ((cs.map cleanCell).filterMap (fun d => okCell (convCell d))) :=
    convertCells_ok _ (by
      intro d hd
      obtain ⟨x, hx, rfl⟩ := List.mem_map.mp hd
      exact hok x hx)
  rw [List.filterMap_map] at hconv
  simp only [Notebook.load, cells_conv, clean_cells, hver, hget, py_bind_ok]
  rw [hconv]
  rfl

/-- Loading fails with the error of the first failing cell dict when the
version accessors succeed and every earlier cell converts. -/
theorem load_err_of (raw : Dict) (v : String) (pre : List Dict) (bad : Dict)
    (rest : List Dict) (e : PyErr)
    (hver : get_format_version raw = .ok v)
    (hget : get_cells raw = .ok (pre ++ bad :: rest))
    (hpre : ∀ d ∈ pre, ∃ r, convCell (cleanCell d) = .ok r)
    (hbad : convCell (cleanCell bad) = .error e) :
    Notebook.load raw = .error e := by
  have hconv : convertCells ((pre ++ bad :: rest).map cleanCell) = .error e := by
    rw [List.map_append, List.map_cons]
    exact convertCells_err _ _ _ _ (by
      intro d hd
      obtain ⟨x, hx, rfl⟩ := List.mem_map.mp hd
      exact hpre x hx) hbad
  simp only [Notebook.load, cells_conv, clean_cells, hver, hget, py_bind_ok]
  rw [hconv]
  rfl

/-- C1: round-trip through serialize and load.  On the section 8 notebook
(single-digit version components) the round trip reproduces the notebook,
but on a valid raw notebook with nbformat_minor 12 the serializer emits
nbformat_minor 2 (the last character of the version string, since the
result of the split on the dot is discarded), and reloading yields
version 4.2 instead of 4.12: the claimed round-trip equality fails. -/
theorem roundtrip_version_bug :
    Notebook.load raw8 = .ok nb8
    ∧ Serializer.serialize nb8 = .ok s8dict
    ∧ Notebook.load s8dict = .ok nb8
    ∧ Notebook.load raw12 = .ok nb12
    ∧ dlookup raw12 "nbformat_minor" = some (.int 12)
    ∧ Serializer.serialize nb12 = .ok s12dict
    ∧ dlookup s12dict "nbformat_minor" = some (.int 2)
    ∧ Notebook.load s12dict = .ok { version := "4.2", cells := nb12.cells }
    ∧ "4.2" ≠ "4.12" :=
  ⟨rfl, rfl, rfl, rfl, rfl, rfl, rfl, rfl, by decide⟩

/-- C2: the outline the code produces on the section 8 scenario differs
from the documented golden output: the first line reads
`Jupyter notebook` instead of `Jupyter Notebook`, headers read
`Markdown Cell`/`Code Cell` without the execution count, and the borders
use an ASCII pipe with extra spaces instead of the documented ones. -/
theorem outline_golden_output_bug :
    Outliner.outline nb8 = .ok actualOutline
    ∧ actualOutline ≠ sampleOutline :=
  ⟨rfl, by decide⟩

/-- C3: `Serializer.to_file` has a `pass` body: it writes nothing and
leaves any file system unchanged, while the sibling
`PyPercentSerializer.to_file` does perform its write. -/
theorem serializer_to_file_writes_nothing (nb : Notebook) (p : String)
    (fs : FileSystem) :
    Serializer.to_file nb p fs = fs
    ∧ PyPercentSerializer.to_file nb8 "hello.py" [] =
        .ok [("hello.py", samplePercent)] :=
  ⟨rfl, rfl⟩

/-- C4: the version split is broken for multi-digit components: for
version 4.12 the serializer emits nbformat 4 and nbformat_minor 2, and
for version 10.5 it emits nbformat 1 and nbformat_minor 5, because it
reads single characters instead of the dot-separated components. -/
theorem version_chars_bug :
    Serializer.serialize nbV412 =
      .ok [("cells", .list []), ("metadata", .dict []),
           ("nbformat", .int 4), ("nbformat_minor", .int 2)]
    ∧ Serializer.serialize nbV105 =
      .ok [("cells", .list []), ("metadata", .dict []),
           ("nbformat", .int 1), ("nbformat_minor", .int 5)]
    ∧ (2 : Int) ≠ 12 ∧ (1 : Int) ≠ 10 :=
  ⟨rfl, rfl, by decide, by decide⟩

/-- C5 counterexample: loading a notebook whose code cell lacks
`execution_count` fails with `KeyError` (from the plain subscript in the
constructor), not with a `MissingFieldError`, which exists nowhere in
the code. -/
theorem load_missing_field_counterexample :
    Notebook.load rawMissing = .error (.keyError "execution_count")
    ∧ Notebook.load rawMissing ≠ .error (.missingFieldError "execution_count") := by
  refine ⟨rfl, ?_⟩
  intro h
  have h1 : Notebook.load rawMissing = .error (.keyError "execution_count") := rfl
  rw [h1] at h
  simp at h

/-- C8 counterexample: a version string with no dot at all does not make
`serialize` raise `MalformedVersionError`; it succeeds, reading the
single character 4 as both components. -/
theorem serialize_malformed_counterexample :
    Serializer.serialize nbV4 =
      .ok [("cells", .list []), ("metadata", .dict []),
           ("nbformat", .int 4), ("nbformat_minor", .int 4)]
    ∧ Serializer.serialize nbV4 ≠ .error .malformedVersionError := by
  refine ⟨rfl, ?_⟩
  intro h
  have h1 : Serializer.serialize nbV4 =
      .ok [("cells", .list []), ("metadata", .dict []),
           ("nbformat", .int 4), ("nbformat_minor", .int 4)] := rfl
  rw [h1] at h
  exact Except.noConfusion h

/-- C10: the dictionary built inside `to_py_percent` is the dictionary
`Serializer.serialize` returns (the two bodies are the same code), so
`to_py_percent` is `to_percent` composed with `serialize`. -/
theorem percent_dict_refines_serialize (nb : Notebook) :
    PyPercentSerializer.buildDict nb = Serializer.serialize nb
    ∧ PyPercentSerializer.to_py_percent nb =
        (do let d ← Serializer.serialize nb; to_percent d) :=
  ⟨rfl, rfl⟩

/-- Unfolding of `Serializer.serialize` into its version-handling stages. -/
theorem serialize_eq (nb : Notebook) :
    Serializer.serialize nb =
      (do
        let c₀ ← strFirst nb.version
        let n₀ ← pyIntOfChar c₀
        let c₁ ← strLast nb.version
        let n₁ ← pyIntOfChar c₁
        .ok [("cells", .list ((nb.cells.map serializeCell).map JVal.dict)),
             ("metadata", .dict []), ("nbformat", .int n₀),
             ("nbformat_minor", .int n₁)]) :=
  rfl

/-- The only error the first-character access can raise. -/
theorem strFirst_error (s : String) (e : PyErr) (h : strFirst s = .error e) :
    e = .indexError := by
  unfold strFirst at h
  cases hl : s.toList with
  | nil => rw [hl] at h; exact (Except.error.inj h).symm
  | cons c l => rw [hl] at h; exact Except.noConfusion h

/-- The only error the last-character access can raise. -/
theorem strLast_error (s : String) (e : PyErr) (h : strLast s = .error e) :
    e = .indexError := by
  unfold strLast at h
  cases hg : s.toList.getLast? with
  | none => rw [hg] at h; exact (Except.error.inj h).symm
  | some c => rw [hg] at h; exact Except.noConfusion h

/-- The only error a one-character int conversion can raise. -/
theorem pyIntOfChar_error (c : Char) (e : PyErr) (h : pyIntOfChar c = .error e) :
    e = .valueError "invalid literal for int" := by
  unfold pyIntOfChar at h
  split_ifs at h
  exact (Except.error.inj h).symm

/-- `serialize` either succeeds or raises `IndexError` (empty version) or
`ValueError` (non-digit first or last character): nothing else. -/
theorem serialize_cases (nb : Notebook) :
    (∃ d, Serializer.serialize nb = .ok d)
    ∨ Serializer.serialize nb = .error .indexError
    ∨ ∃ m, Serializer.serialize nb = .error (.valueError m) := by
  rw [serialize_eq nb]
  cases h0 : strFirst nb.version with
  | error e =>
    obtain rfl := strFirst_error _ _ h0
    right; left; rfl
  | ok c₀ =>
    simp only [py_bind_ok]
    cases h1 : pyIntOfChar c₀ with
    | error e =>
      obtain rfl := pyIntOfChar_error _ _ h1
      right; right; exact ⟨_, rfl⟩
    | ok n₀ =>
      simp only [py_bind_ok]
      cases h2 : strLast nb.version with
      | error e =>
        obtain rfl := strLast_error _ _ h2
        right; left; rfl
      | ok c₁ =>
        simp only [py_bind_ok]
        cases h3 : pyIntOfChar c₁ with
        | error e =>
          obtain rfl := pyIntOfChar_error _ _ h3
          right; right; exact ⟨_, rfl⟩
        | ok n₁ =>
          simp only [py_bind_ok]
          left; exact ⟨_, rfl⟩

/-- C8 amended: `serialize` never raises `MalformedVersionError` (no such
class exists); a version that does not split into two dot-separated
integer components either succeeds on the first and last characters, as
4.5.1 does, or raises `ValueError` from `int()`, as a non-numeric
version does. -/
theorem serialize_no_malformedVersionError (nb : Notebook) :
    Serializer.serialize nb ≠ .error .malformedVersionError
    ∧ Serializer.serialize nbV451 =
        .ok [("cells", .list []), ("metadata", .dict []),
             ("nbformat", .int 4), ("nbformat_minor", .int 1)]
    ∧ Serializer.serialize nbVwords = .error (.valueError "invalid literal for int") := by
  refine ⟨?_, rfl, rfl⟩
  rcases serialize_cases nb with ⟨d, h⟩ | h | ⟨m, h⟩ <;> rw [h] <;> simp

/-- Witness for the amended C8 at an empty notebook with version 4. -/
theorem serialize_no_malformedVersionError_witness :
    Serializer.serialize nbV4 ≠ .error .malformedVersionError :=
  (serialize_no_malformedVersionError nbV4).1

/-- C5 amended: when a cell dict of the raw notebook lacks a required
field and every earlier cell converts without error, loading fails with
a `KeyError` naming the first absent required field (`id`, `source`, or
for code cells `execution_count`); no partial cell is produced. -/
theorem load_missing_field_keyError (raw : Dict) (v f : String)
    (pre : List Dict) (bad : Dict) (rest : List Dict)
    (hver : get_format_version raw = .ok v)
    (hget : get_cells raw = .ok (pre ++ bad :: rest))
    (hpre : ∀ d ∈ pre, ∃ r, convCell (cleanCell d) = .ok r)
    (hbad : requiredMissing bad = some f) :
    Notebook.load raw = .error (.keyError f)
    ∧ (f = "id" ∨ f = "source" ∨ f = "execution_count") := by
  constructor
  · exact load_err_of raw v pre bad rest _ hver hget hpre
      (convCell_missing bad f hbad)
  · unfold requiredMissing at hbad
    cases hct : dlookup bad "cell_type" with
    | none => rw [hct] at hbad; simp at hbad
    | some u =>
      rw [hct] at hbad
      cases u with
      | str t =>
        simp only at hbad
        split_ifs at hbad
        · exact Or.inl (Option.some.inj hbad).symm
        · exact Or.inr (Or.inl (Option.some.inj hbad).symm)
        · exact Or.inl (Option.some.inj hbad).symm
        · exact Or.inr (Or.inl (Option.some.inj hbad).symm)
        · exact Or.inr (Or.inr (Option.some.inj hbad).symm)
      | int n => simp at hbad
      | list xs => simp at hbad
      | dict kvs => simp at hbad
      | null => simp at hbad

/-- Witness for the amended C5: a markdown cell without `source` makes
loading fail with `KeyError` for `source`. -/
theorem load_missing_field_keyError_witness :
    Notebook.load rawMissingSource = .error (.keyError "source")
    ∧ ("source" = "id" ∨ "source" = "source" ∨ "source" = "execution_count") :=
  load_missing_field_keyError rawMissingSource "4.5" "source" []
    [("cell_type", .str "markdown"), ("id", .str "m1")] [] rfl rfl
    (by intro d hd; simp at hd) rfl

/-- C7: a cell whose `cell_type` is neither `code` nor `markdown` is
silently skipped: loading succeeds (when the remaining cells are well
formed), the unknown cell contributes no cell to the result, and the
known cells appear converted in document order. -/
theorem unknown_cell_type_skipped (raw : Dict) (v : String) (cs : List Dict)
    (hver : get_format_version raw = .ok v)
    (hget : get_cells raw = .ok cs)
    (hok : ∀ d ∈ cs, ∃ r, convCell (cleanCell d) = .ok r) :
    Notebook.load raw =
      .ok ⟨v, cs.filterMap (fun d => okCell (convCell (cleanCell d)))⟩
    ∧ ∀ d ∈ cs, unknownType d → okCell (convCell (cleanCell d)) = none := by
  refine ⟨load_ok_of raw v cs hver hget hok, ?_⟩
  intro d _ hu
  rw [convCell_unknown d hu]
  rfl

/-- Witness for C7: the notebook with a cell of type `raw` loads, the
unknown cell is dropped, and the markdown and code cells survive in
order. -/
theorem unknown_cell_type_skipped_witness :
    Notebook.load rawUnknown =
      .ok { version := "4.5",
            cells := [.markdown ⟨.str "m1", .list [.str "hi"]⟩,
                      .code ⟨.str "c1", .list [.str "2 + 2"], .null⟩] } := by
  have hok : ∀ d ∈ csU, ∃ r, convCell (cleanCell d) = .ok r := by
    intro d hd
    simp only [csU, List.mem_cons, List.not_mem_nil, or_false] at hd
    rcases hd with rfl | rfl | rfl
    · exact ⟨_, rfl⟩
    · exact ⟨_, rfl⟩
    · exact ⟨_, rfl⟩
  exact (unknown_cell_type_skipped rawUnknown "4.5" csU rfl rfl hok).1

/-- Rendering a serialized cell dict as a py-percent block agrees with
the block the spec describes for the typed cell. -/
theorem percentBlock_serializeCell (c : Cell) :
    percentBlock (serializeCell c) = specBlock c := by
  cases c <;> rfl

/-- The dictionary built by `to_py_percent` under a well-formed version:
first and last version characters are digits. -/
theorem buildDict_ok (nb : Notebook) (c₀ c₁ : Char)
    (h0 : strFirst nb.version = .ok c₀) (hd0 : c₀.isDigit = true)
    (h1 : strLast nb.version = .ok c₁) (hd1 : c₁.isDigit = true) :
    PyPercentSerializer.buildDict nb =
      .ok [("cells", .list ((nb.cells.map serializeCell).map JVal.dict)),
           ("metadata", .dict []),
           ("nbformat", .int (Int.ofNat (c₀.toNat - 48))),
           ("nbformat_minor", .int (Int.ofNat (c₁.toNat - 48)))] := by
  simp only [PyPercentSerializer.buildDict, h0, h1, py_bind_ok, pyIntOfChar,
    hd0, hd1, if_pos]

/-- Applying the percent renderer to the serialized dictionary yields one
block per cell, in order, joined by single blank lines. -/
theorem to_percent_built (nb : Notebook) (n₀ n₁ : Int) :
    to_percent [("cells", .list ((nb.cells.map serializeCell).map JVal.dict)),
                ("metadata", .dict []), ("nbformat", .int n₀),
                ("nbformat_minor", .int n₁)] =
      (do
        let bs ← mapE specBlock nb.cells
        .ok (String.intercalate "\n\n" bs)) := by
  simp only [to_percent, getItem, dlookup, if_pos, py_bind_ok]
  rw [asListDict_map_dict]
  simp only [py_bind_ok]
  rw [mapE_map, mapE_congr _ _ percentBlock_serializeCell]

/-- C6: for a notebook whose version string starts and ends with a digit
(as every loaded `major.minor` version does), `to_py_percent` emits one
block per cell in cell order, markdown blocks with the
`# %% [markdown]` marker and `# `-prefixed lines, code blocks with the
`# %%` marker and verbatim lines, blocks joined by exactly one blank
line; on the section 8 scenario it equals the documented sample. -/
theorem to_py_percent_spec (nb : Notebook) (c₀ c₁ : Char)
    (h0 : strFirst nb.version = .ok c₀) (hd0 : c₀.isDigit = true)
    (h1 : strLast nb.version = .ok c₁) (hd1 : c₁.isDigit = true) :
    PyPercentSerializer.to_py_percent nb =
      (do
        let bs ← mapE specBlock nb.cells
        .ok (String.intercalate "\n\n" bs))
    ∧ PyPercentSerializer.to_py_percent nb8 = .ok samplePercent := by
  refine ⟨?_, rfl⟩
  simp only [PyPercentSerializer.to_py_percent]
  rw [buildDict_ok nb c₀ c₁ h0 hd0 h1 hd1]
  simp only [py_bind_ok]
  exact to_percent_built nb _ _

/-- Witness for C6 at the section 8 notebook. -/
theorem to_py_percent_spec_witness :
    PyPercentSerializer.to_py_percent nb8 =
      (do
        let bs ← mapE specBlock nb8.cells
        .ok (String.intercalate "\n\n" bs))
    ∧ PyPercentSerializer.to_py_percent nb8 = .ok samplePercent :=
  to_py_percent_spec nb8 '4' '5' rfl rfl rfl rfl

/-- C9: iterating a notebook yields exactly its cells in order; loading
keeps the surviving cells in raw document order; `serialize` emits the
cell dictionaries in the same order as the notebook's cells; and on the
section 8 scenario iteration yields the three ids in document order. -/
theorem order_preservation (nb : Notebook) (raw : Dict) (v : String)
    (cs : List Dict)
    (hver : get_format_version raw = .ok v)
    (hget : get_cells raw = .ok cs)
    (hok : ∀ d ∈ cs, ∃ r, convCell (cleanCell d) = .ok r) :
    Notebook.iterCells nb = nb.cells
    ∧ (Notebook.load raw).map Notebook.cells =
        .ok (cs.filterMap (fun d => okCell (convCell (cleanCell d))))
    ∧ (∀ out, Serializer.serialize nb = .ok out →
        dlookup out "cells" =
          some (.list (nb.cells.map (fun c => .dict (serializeCell c)))))
    ∧ (Notebook.load raw8).map (fun x => x.cells.map cellId) =
        .ok [.str "a9541506", .str "b777420a", .str "a23ab5ac"] := by
  refine ⟨rfl, ?_, ?_, rfl⟩
  · rw [load_ok_of raw v cs hver hget hok]; rfl
  · intro out hout
    rw [serialize_eq nb] at hout
    cases h0 : strFirst nb.version with
    | error e => rw [h0, py_bind_err] at hout; exact Except.noConfusion hout
    | ok c₀ =>
      rw [h0] at hout; simp only [py_bind_ok] at hout
      cases h1 : pyIntOfChar c₀ with
      | error e => rw [h1, py_bind_err] at hout; exact Except.noConfusion hout
      | ok n₀ =>
        rw [h1] at hout; simp only [py_bind_ok] at hout
        cases h2 : strLast nb.version with
        | error e => rw [h2, py_bind_err] at hout; exact Except.noConfusion hout
        | ok c₁ =>
          rw [h2] at hout; simp only [py_bind_ok] at hout
          cases h3 : pyIntOfChar c₁ with
          | error e => rw [h3, py_bind_err] at hout; exact Except.noConfusion hout
          | ok n₁ =>
            rw [h3] at hout; simp only [py_bind_ok] at hout
            obtain rfl := (Except.ok.inj hout).symm
            simp [dlookup, List.map_map, Function.comp]

/-- Witness for C9: the serialized section 8 notebook lists its cell
dictionaries in notebook order. -/
theorem order_preservation_witness :
    dlookup s8dict "cells" =
      some (.list (nb8.cells.map (fun c => .dict (serializeCell c)))) := by
  have hok : ∀ d ∈ cs8, ∃ r, convCell (cleanCell d) = .ok r := by
    intro d hd
    simp only [cs8, List.mem_cons, List.not_mem_nil, or_false] at hd
    rcases hd with rfl | rfl | rfl
    · exact ⟨_, rfl⟩
    · exact ⟨_, rfl⟩
    · exact ⟨_, rfl⟩
  exact (order_preservation nb8 raw8 "4.5" cs8 rfl rfl hok).2.2.1 s8dict rfl
